import Mathlib

/-!
Verification of the Boss robot-learning controller.

This file embeds the core of `src/components/BossController.ts`,
`lib/ModelExporter.ts` and `lib/robotTypes.ts` in Lean 4 and proves the
testable properties of the specification against that embedding.

Modelling conventions:
* JavaScript numbers are modelled by exact rationals (`ℚ`); none of the
  properties proved here depends on rounding of IEEE doubles, and the only
  non-field operation that occurs, `Math.sqrt`, is modelled by `Rat.sqrt`
  (every proof below uses only `sqrt 0 = 0`, congruence, and the fact that
  the final clamp bounds the result for any value of the square root).
* JavaScript arrays become `List ℚ`; reading `a[i]` at an index that the
  code has already bounds-guarded becomes `List.getD i 0`.
* The controller object becomes an explicit `ControllerState` record and
  each method a state-passing function.
* `async` methods that can reject become `Except String`-valued functions:
  `Except.error` is a thrown exception escaping to the caller, `Except.ok`
  a normally returned value.
-/

namespace Boss

/-- The robot morphology registry entry of `lib/robotTypes.ts`. -/
structure RobotType where
  id : String
  name : String
  sensorCount : Nat
  motorCount : Nat
  deriving DecidableEq

/-- The `ROBOT_TYPES.BIPED` entry. -/
def BIPED : RobotType := { id := "biped", name := "Biped Boss", sensorCount := 28, motorCount := 8 }

/-- The `ROBOT_TYPES.QUADRUPED` entry. -/
def QUADRUPED : RobotType := { id := "quadruped", name := "Quad Boss", sensorCount := 32, motorCount := 12 }

/-- The `ROBOT_TYPES.SPIDER` entry. -/
def SPIDER : RobotType := { id := "spider", name := "Spider Boss", sensorCount := 40, motorCount := 18 }

/-- JavaScript truthiness of a number (`NaN` excepted, which cannot arise in
the exact-rational model): a number is truthy iff it is nonzero. -/
def truthy (q : ℚ) : Bool := q != 0

/-- The ground-contact summary that `createSensorData` attaches to the sensor
array for the biped morphology: `left` and `right` are the continuous contact
values, `both` is the JavaScript value `left && right` (a number). The fitness
function reads the summary through optional chaining, so a missing summary is
modelled by `Option.none`. -/
structure GroundContact where
  left : ℚ
  right : ℚ
  both : ℚ
  deriving DecidableEq

/-- Reading `sensorData[i]`; `calculateFitness` destructures the first 24
entries only after checking `sensorData.length >= 24`, so the default is
never observable in the guarded code path. -/
def getS (v : List ℚ) (i : Nat) : ℚ := v.getD i 0

/-- Embedding of `BossController.calculateFitness`.  Indices follow the
destructuring pattern of the source: `headY` is entry 0, `torsoY` entry 1,
`torsoX` entry 5, torso velocity entries 9–11, `rotX` entry 16, `rotZ`
entry 18, angular velocity entries 20–21, knee angles entries 22–23.
`Math.sqrt` is modelled by `Rat.sqrt`; the ground-contact bonus reads the
out-of-band summary with JavaScript truthiness. -/
def calculateFitness (sensorData : List ℚ) (groundContact : Option GroundContact) : ℚ :=
  if sensorData.length < 24 then 100
  else
    let headY := getS sensorData 0
    let torsoY := getS sensorData 1
    let torsoX := getS sensorData 5
    let torsoVelX := getS sensorData 9
    let torsoVelY := getS sensorData 10
    let torsoVelZ := getS sensorData 11
    let rotX := getS sensorData 16
    let rotZ := getS sensorData 18
    let angVelX := getS sensorData 20
    let angVelZ := getS sensorData 21
    let leftKneeAngle := getS sensorData 22
    let rightKneeAngle := getS sensorData 23
    let targetHeadHeight : ℚ := 9/5
    let targetTorsoHeight : ℚ := 1
    let headHeightScore := max 0 (40 * (headY / targetHeadHeight))
    let torsoHeightScore := max 0 (30 * (torsoY / targetTorsoHeight))
    let positionStability := max 0 (15 * (1 - min 1 (|torsoX| / 2)))
    let velocityMagnitude :=
      Rat.sqrt (torsoVelX * torsoVelX + torsoVelY * torsoVelY + torsoVelZ * torsoVelZ)
    let stillnessBonus := max 0 (10 * (1 - min 1 (velocityMagnitude / 2)))
    let uprightBonus := max 0 (15 * (1 - |rotX| - |rotZ|))
    let groundContactBonus : ℚ :=
      match groundContact with
      | none => 0
      | some gc => if truthy gc.both then 20 else if truthy gc.left || truthy gc.right then 10 else 0
    let jointStabilityBonus := max 0 (10 * (1 - (|leftKneeAngle| + |rightKneeAngle|) / 2))
    let angularStabilityBonus := max 0 (10 * (1 - (|angVelX| + |angVelZ|) / 2))
    let fitness := headHeightScore + torsoHeightScore + positionStability +
      stillnessBonus + uprightBonus + groundContactBonus +
      jointStabilityBonus + angularStabilityBonus
    max 0 (min 100 fitness)

theorem ratSqrt_zero : Rat.sqrt 0 = 0 := by
  simp

/-- C5: for every input list of floats, of any length and with any attached
ground-contact summary, `calculateFitness` returns a value in [0, 100]. -/
theorem calculateFitness_mem_Icc (v : List ℚ) (gc : Option GroundContact) :
    0 ≤ calculateFitness v gc ∧ calculateFitness v gc ≤ 100 := by
  unfold calculateFitness
  split
  · exact ⟨by norm_num, by norm_num⟩
  · constructor
    · exact le_max_left 0 _
    · exact max_le (by norm_num) (min_le_left 100 _)

/-- C6: Scenario A.  Any sensor vector of length at least 24 whose relevant
components read headY = 1.8, torsoY = 1.0, torsoX = 0, zero torso velocity,
zero rotX and rotZ, zero angular velocity and zero knee angles, together with
a ground-contact summary whose `both` field is truthy, scores
40+30+15+10+15+20+10+10 = 150 and is clamped to 100. -/
theorem calculateFitness_scenarioA (v : List ℚ) (g : GroundContact)
    (hlen : 24 ≤ v.length)
    (h0 : getS v 0 = 9/5) (h1 : getS v 1 = 1) (h5 : getS v 5 = 0)
    (h9 : getS v 9 = 0) (h10 : getS v 10 = 0) (h11 : getS v 11 = 0)
    (h16 : getS v 16 = 0) (h18 : getS v 18 = 0)
    (h20 : getS v 20 = 0) (h21 : getS v 21 = 0)
    (h22 : getS v 22 = 0) (h23 : getS v 23 = 0)
    (hb : truthy g.both = true) :
    calculateFitness v (some g) = 100 := by
  unfold calculateFitness
  rw [if_neg (by omega)]
  simp only [h0, h1, h5, h9, h10, h11, h16, h18, h20, h21, h22, h23, hb]
  norm_num [ratSqrt_zero]

/-- C6 witness: the concrete Scenario A sensor vector (24 entries, both feet
in contact) evaluates to fitness 100. -/
theorem calculateFitness_scenarioA_witness :
    calculateFitness
      [9/5, 1, 0, 0, 0, 0, 0, 0, 0, 0, 0, 0, 0, 0, 0, 0, 0, 0, 0, 0, 0, 0, 0, 0]
      (some { left := 1, right := 1, both := 1 }) = 100 :=
  calculateFitness_scenarioA _ _ (by decide) rfl rfl rfl
    rfl rfl rfl rfl rfl rfl
    rfl rfl rfl (by decide)

/-- C10: `calculateFitness` reads no components of the sensor vector other
than indices 0, 1, 5, 9, 10, 11, 16, 18, 20, 21, 22, 23 and the attached
ground-contact summary: two vectors of length at least 24 agreeing there
receive equal fitness. -/
theorem calculateFitness_depends_only_on_read_components
    (v w : List ℚ) (gc : Option GroundContact)
    (hv : 24 ≤ v.length) (hw : 24 ≤ w.length)
    (e0 : getS v 0 = getS w 0) (e1 : getS v 1 = getS w 1)
    (e5 : getS v 5 = getS w 5) (e9 : getS v 9 = getS w 9)
    (e10 : getS v 10 = getS w 10) (e11 : getS v 11 = getS w 11)
    (e16 : getS v 16 = getS w 16) (e18 : getS v 18 = getS w 18)
    (e20 : getS v 20 = getS w 20) (e21 : getS v 21 = getS w 21)
    (e22 : getS v 22 = getS w 22) (e23 : getS v 23 = getS w 23) :
    calculateFitness v gc = calculateFitness w gc := by
  unfold calculateFitness
  rw [if_neg (by omega), if_neg (by omega)]
  rw [e0, e1, e5, e9, e10, e11, e16, e18, e20, e21, e22, e23]

/-- C10 witness: two concrete vectors differing only in unread components
(here index 2 and index 17) receive equal fitness. -/
theorem calculateFitness_depends_only_on_read_components_witness :
    calculateFitness
      [9/5, 1, 0, 0, 0, 0, 0, 0, 0, 0, 0, 0, 0, 0, 0, 0, 0, 0, 0, 0, 0, 0, 0, 0]
      (some { left := 1, right := 1, both := 1 }) =
    calculateFitness
      [9/5, 1, 7, 0, 0, 0, 0, 0, 0, 0, 0, 0, 0, 0, 0, 0, 0, -3, 0, 0, 0, 0, 0, 0]
      (some { left := 1, right := 1, both := 1 }) :=
  calculateFitness_depends_only_on_read_components _ _ _ (by decide) (by decide)
    rfl rfl rfl rfl rfl rfl rfl rfl rfl rfl rfl rfl

/-- One weight tensor of a tf.js model: its layer name, shape, and
row-major flattened float32 values (exact rationals in the model). -/
structure NamedTensor where
  name : String
  shape : List Nat
  data : List ℚ
  deriving DecidableEq

/-- A tf.js `LayersModel` as the exporter and the training loop see it:
the ordered list of its weight tensors (`model.getWeights()`). -/
structure NetModel where
  weights : List NamedTensor
  deriving DecidableEq

/-- One entry of `BossController.trainingData`. -/
structure TrainingSample where
  state : List ℚ
  action : List ℚ
  fitness : ℚ
  deriving DecidableEq

/-- The mutable fields of a `BossController` instance.  `model` is `none`
while no network exists.  Timestamp-derived fields (`modelName`) are carried
as opaque strings. -/
structure ControllerState where
  robotType : RobotType
  modelName : String
  model : Option NetModel
  isTraining : Bool
  trainingData : List TrainingSample
  isInitialized : Bool
  explorationRate : ℚ
  stepCount : Nat
  lastFitness : ℚ
  fitnessHistory : List ℚ
  bestAction : Option (List ℚ)
  bestFitness : ℚ
  trainingActive : Bool
  lastAction : List ℚ
  deriving DecidableEq

/-- The constructor `new BossController(robotType)`: all fields at their
declared initial values (the `Date.now()`-derived model name is passed in
as an opaque string). -/
def initialState (rt : RobotType) (modelName : String) : ControllerState where
  robotType := rt
  modelName := modelName
  model := none
  isTraining := false
  trainingData := []
  isInitialized := false
  explorationRate := 7/10
  stepCount := 0
  lastFitness := 0
  fitnessHistory := []
  bestAction := none
  bestFitness := 0
  trainingActive := false
  lastAction := [0, 0, 0, 0, 0, 0, 0, 0]

/-- Embedding of `BossController.addTrainingSample`: returns immediately when
`trainingActive` is false; otherwise pushes the sample and the fitness value,
updates the best-episode tracking, trims `trainingData` to its most recent 800
entries when it exceeds 1000 (`slice(-800)`), trims `fitnessHistory` to its
most recent 400 entries when it exceeds 500, and records `lastFitness`. -/
def addTrainingSample (s : ControllerState) (st ac : List ℚ) (fitness : ℚ) : ControllerState :=
  if !s.trainingActive then s
  else
    let trainingData := s.trainingData ++ [⟨st, ac, fitness⟩]
    let fitnessHistory := s.fitnessHistory ++ [fitness]
    let best : ℚ × Option (List ℚ) :=
      if s.bestFitness < fitness then (fitness, some ac) else (s.bestFitness, s.bestAction)
    let trainingData :=
      if 1000 < trainingData.length then trainingData.drop (trainingData.length - 800)
      else trainingData
    let fitnessHistory :=
      if 500 < fitnessHistory.length then fitnessHistory.drop (fitnessHistory.length - 400)
      else fitnessHistory
    { s with
      trainingData := trainingData
      fitnessHistory := fitnessHistory
      bestFitness := best.1
      bestAction := best.2
      lastFitness := fitness }

/-- Embedding of `BossController.pauseTraining`. -/
def pauseTraining (s : ControllerState) : ControllerState :=
  { s with trainingActive := false }

/-- C9: with `trainingActive` false, `addTrainingSample` is the identity on
the whole controller state (in particular on `trainingData`,
`fitnessHistory`, `bestFitness` and `bestAction`), and `pauseTraining`
changes only the `trainingActive` flag, so pausing never discards collected
samples. -/
theorem addTrainingSample_inactive_frame :
    (∀ (s : ControllerState) (st ac : List ℚ) (f : ℚ),
      s.trainingActive = false → addTrainingSample s st ac f = s) ∧
    (∀ s : ControllerState, pauseTraining s = { s with trainingActive := false }) := by
  constructor
  · intro s st ac f h
    unfold addTrainingSample
    rw [h]
    rfl
  · intro s
    rfl

/-- C9 witness: the frame condition evaluated on a concrete paused controller
state holding one sample. -/
theorem addTrainingSample_inactive_frame_witness :
    addTrainingSample
      { initialState BIPED ("m") with trainingData := [⟨[1], [2], 3⟩] } [4] [5] 6 =
    { initialState BIPED ("m") with trainingData := [⟨[1], [2], 3⟩] } :=
  addTrainingSample_inactive_frame.1
    { initialState BIPED ("m") with trainingData := [⟨[1], [2], 3⟩] } [4] [5] 6 rfl

/-- The effect of one insertion on the buffer alone while training is
active: push the sample, then trim to the most recent 800 entries when the
length exceeds 1000 (`this.trainingData.slice(-800)`). -/
def pushTrim (b : List TrainingSample) (x : TrainingSample) : List TrainingSample :=
  if 1000 < (b ++ [x]).length then (b ++ [x]).drop ((b ++ [x]).length - 800) else b ++ [x]

/-- Sample number `k` of eviction Scenario C: its identity is carried in the
state and fitness fields. -/
def sampleNum (k : Nat) : TrainingSample := ⟨[(k : ℚ)], [], (k : ℚ)⟩

/-- Insert the numbered samples of Scenario C in order through
`addTrainingSample`. -/
def insertNumbered (s : ControllerState) (l : List Nat) : ControllerState :=
  l.foldl (fun st k => addTrainingSample st [(k : ℚ)] [] (k : ℚ)) s

/-- A fresh biped controller with training switched on and an empty buffer. -/
def activeInit : ControllerState := { initialState BIPED ("m") with trainingActive := true }

theorem addTrainingSample_trainingActive (s : ControllerState) (st ac : List ℚ) (f : ℚ) :
    (addTrainingSample s st ac f).trainingActive = s.trainingActive := by
  unfold addTrainingSample
  split <;> rfl

theorem addTrainingSample_active_buffer (s : ControllerState) (st ac : List ℚ) (f : ℚ)
    (h : s.trainingActive = true) :
    (addTrainingSample s st ac f).trainingData = pushTrim s.trainingData ⟨st, ac, f⟩ := by
  unfold addTrainingSample pushTrim
  rw [h]
  rfl

theorem insertNumbered_buffer :
    ∀ (l : List Nat) (s : ControllerState), s.trainingActive = true →
      (insertNumbered s l).trainingData =
        l.foldl (fun b k => pushTrim b (sampleNum k)) s.trainingData := by
  intro l
  induction l with
  | nil => intro s _; rfl
  | cons a l ih =>
    intro s h
    show (insertNumbered (addTrainingSample s [(a : ℚ)] [] (a : ℚ)) l).trainingData = _
    rw [ih _ (by rw [addTrainingSample_trainingActive, h]),
      addTrainingSample_active_buffer s _ _ _ h]
    rfl

theorem foldl_pushTrim_no_evict :
    ∀ (l : List Nat) (b : List TrainingSample), b.length + l.length ≤ 1000 →
      l.foldl (fun b k => pushTrim b (sampleNum k)) b = b ++ l.map sampleNum := by
  intro l
  induction l with
  | nil => intro b _; simp
  | cons a l ih =>
    intro b h
    have hlen : (b ++ [sampleNum a]).length = b.length + 1 := by simp
    have hstep : pushTrim b (sampleNum a) = b ++ [sampleNum a] := by
      unfold pushTrim
      rw [if_neg]
      rw [hlen]
      simp at h
      omega
    show List.foldl _ (pushTrim b (sampleNum a)) l = _
    rw [hstep, ih (b ++ [sampleNum a]) (by rw [hlen]; simp at h ⊢; omega)]
    simp

theorem pushTrim_length_le (b : List TrainingSample) (x : TrainingSample)
    (h : b.length ≤ 1000) : (pushTrim b x).length ≤ 1000 := by
  unfold pushTrim
  split
  · rw [List.length_drop]
    omega
  · simp at *
    omega

theorem foldl_pushTrim_length_le :
    ∀ (l : List Nat) (b : List TrainingSample), b.length ≤ 1000 →
      (l.foldl (fun b k => pushTrim b (sampleNum k)) b).length ≤ 1000 := by
  intro l
  induction l with
  | nil => intro b h; exact h
  | cons a l ih =>
    intro b h
    exact ih _ (pushTrim_length_le b (sampleNum a) h)

theorem range'_drop :
    ∀ (k s n : Nat), (List.range' s n).drop k = List.range' (s + k) (n - k) := by
  intro k
  induction k with
  | zero => intro s n; simp
  | succ k ih =>
    intro s n
    cases n with
    | zero => simp
    | succ m =>
      show (List.range' (s + 1) m).drop k = _
      rw [ih (s + 1) m]
      congr 1 <;> omega

theorem pushTrim_evict (b : List TrainingSample) (x : TrainingSample) (h : b.length = 1000) :
    pushTrim b x = (b ++ [x]).drop 201 := by
  unfold pushTrim
  rw [if_pos]
  · rw [List.length_append, h]
    norm_num
  · simp [h]

/-- The buffer after Scenario C: inserting samples 1..1005 into an empty
buffer with training active leaves exactly samples 202..1005 (the one
eviction at the 1001st insertion keeps samples 202..1001). -/
theorem bufferAfter_scenarioC :
    (insertNumbered activeInit (List.range' 1 1005)).trainingData =
      (List.range' 202 804).map sampleNum := by
  rw [insertNumbered_buffer _ _ rfl]
  show List.foldl _ ([] : List TrainingSample) _ = _
  have hsplit : List.range' 1 1005 = (List.range' 1 1000 ++ [1001]) ++ List.range' 1002 4 := by
    have h1 : List.range' 1 1000 ++ List.range' 1001 1 = List.range' 1 1001 := by
      have := List.range'_append 1 1000 1 1
      simpa using this
    have h2 : List.range' 1 1001 ++ List.range' 1002 4 = List.range' 1 1005 := by
      have := List.range'_append 1 1001 4 1
      simpa using this
    rw [← h2, ← h1]
    rfl
  rw [hsplit, List.foldl_append, List.foldl_append]
  rw [foldl_pushTrim_no_evict (List.range' 1 1000) [] (by simp)]
  simp only [List.foldl_cons, List.foldl_nil, List.nil_append]
  rw [pushTrim_evict _ _ (by simp)]
  have hall : (List.range' 1 1000).map sampleNum ++ [sampleNum 1001] =
      (List.range' 1 1001).map sampleNum := by
    have h1 : List.range' 1 1000 ++ List.range' 1001 1 = List.range' 1 1001 := by
      have := List.range'_append 1 1000 1 1
      simpa using this
    rw [← h1]
    simp
  rw [hall, ← List.map_drop, range'_drop]
  have e1 : (1 : Nat) + 201 = 202 := by norm_num
  have e2 : (1001 : Nat) - 201 = 800 := by norm_num
  rw [e1, e2]
  rw [foldl_pushTrim_no_evict (List.range' 1002 4) _ (by simp)]
  have hr : List.range' 202 800 ++ List.range' 1002 4 = List.range' 202 804 := by
    have := List.range'_append 202 800 4 1
    simpa using this
  rw [← List.map_append, hr]

/-- C2 (amended): inserting samples 1..1005 in order into an empty buffer
with training active leaves the buffer holding exactly samples 202..1005:
the eviction-to-800 policy fires once, at the 1001st insertion, keeping
samples 202..1001, and the four remaining insertions append normally.
Moreover after every individual insertion (indeed after any insertion
sequence) the buffer length never exceeds 1000. -/
theorem scenarioC_eviction :
    (insertNumbered activeInit (List.range' 1 1005)).trainingData =
      (List.range' 202 804).map sampleNum ∧
    ∀ n : Nat, ((insertNumbered activeInit (List.range' 1 n)).trainingData).length ≤ 1000 := by
  constructor
  · exact bufferAfter_scenarioC
  · intro n
    rw [insertNumbered_buffer _ _ rfl]
    exact foldl_pushTrim_length_le _ _ (by decide)

/-- C2 counterexample: after inserting samples 1..1005, the buffer does not
hold samples 206..1005 (an 800-element list) as claimed: it holds the 804
samples 202..1005. -/
theorem scenarioC_claimed_contents_false :
    (insertNumbered activeInit (List.range' 1 1005)).trainingData ≠
      (List.range' 206 800).map sampleNum := by
  rw [bufferAfter_scenarioC]
  intro h
  have hlen := congrArg List.length h
  simp at hlen

/-- The index-threaded map underlying JavaScript
`array.map((value, index) => ...)`. -/
def mapWithIndex {α β : Type} (f : Nat → α → β) : Nat → List α → List β
  | _, [] => []
  | i, a :: as => f i a :: mapWithIndex f (i + 1) as

theorem mapWithIndex_length {α β : Type} (f : Nat → α → β) :
    ∀ (l : List α) (n : Nat), (mapWithIndex f n l).length = l.length := by
  intro l
  induction l with
  | nil => intro n; rfl
  | cons a as ih => intro n; simp [mapWithIndex, ih]

theorem mapWithIndex_getD {α β : Type} (f : Nat → α → β) (d : β) (e : α) :
    ∀ (l : List α) (n i : Nat), i < l.length →
      (mapWithIndex f n l).getD i d = f (n + i) (l.getD i e) := by
  intro l
  induction l with
  | nil => intro n i h; simp at h
  | cons a as ih =>
    intro n i h
    cases i with
    | zero => simp [mapWithIndex]
    | succ j =>
      show (mapWithIndex f (n + 1) as).getD j d = f (n + (j + 1)) (as.getD j e)
      rw [ih (n + 1) j (by simpa using h)]
      congr 1
      omega

/-- Embedding of the action computation of `BossController.predict`.
`modelReady` is the condition `model exists, sensorData exists and
sensorData.length >= robotType.sensorCount`; when it fails, `predict`
returns the raw exploration draw unmodified.  Otherwise the raw action
(exploration draw or network output, supplied here as `rawAction`) is
speed-limited against `lastAction` with `maxMotorChangeRate = 0.05` and then
smoothed with `smoothingFactor = 0.3`.  In both cases the returned list also
becomes the new `lastAction`. -/
def predictAction (modelReady : Bool) (rawAction lastAction : List ℚ) : List ℚ :=
  if !modelReady then rawAction
  else
    let maxChange : ℚ := 1/20
    let speedLimited := mapWithIndex (fun i newVal =>
      lastAction.getD i 0 +
        max (-maxChange) (min maxChange (newVal - lastAction.getD i 0))) 0 rawAction
    mapWithIndex (fun i newVal =>
      lastAction.getD i 0 * (3/10) + newVal * (1 - 3/10)) 0 speedLimited

/-- C1 (amended): on ticks where the model exists and the sensor vector is
long enough, every in-range component of the action returned by `predict`
differs from the corresponding component of the previous `lastAction` by at
most `maxMotorChangeRate = 0.05`; the exploration-only ticks (no model or
short sensor vector) are exempt, as the raw draw is returned unmodified
there. -/
theorem predictAction_rate_limited (raw last : List ℚ) (i : Nat)
    (hi : i < raw.length) (_hl : i < last.length) :
    |(predictAction true raw last).getD i 0 - last.getD i 0| ≤ 1/20 := by
  have hlen : i < (mapWithIndex (fun i newVal =>
      last.getD i 0 + max (-(1/20 : ℚ)) (min (1/20) (newVal - last.getD i 0))) 0 raw).length := by
    rw [mapWithIndex_length]
    exact hi
  simp only [predictAction, Bool.not_true, Bool.false_eq_true, if_false]
  rw [mapWithIndex_getD _ (0 : ℚ) (0 : ℚ) _ 0 i hlen,
    mapWithIndex_getD _ (0 : ℚ) (0 : ℚ) raw 0 i hi]
  simp only [Nat.zero_add]
  set L := last.getD i 0 with hL
  set R := raw.getD i 0 with hR
  set c := max (-(1/20 : ℚ)) (min (1/20) (R - L)) with hc
  have hcb : |c| ≤ 1/20 := by
    rw [abs_le]
    constructor
    · exact le_max_left _ _
    · exact max_le (by norm_num) (min_le_left _ _)
  have hdiff : L * (3/10) + (L + c) * (1 - 3/10) - L = (7/10) * c := by ring
  rw [hdiff, abs_mul]
  have h7 : |(7/10 : ℚ)| = 7/10 := by norm_num
  rw [h7]
  calc (7/10 : ℚ) * |c| ≤ (7/10) * (1/20) := by
        apply mul_le_mul_of_nonneg_left hcb
        norm_num
    _ ≤ 1/20 := by norm_num

/-- C1 witness: the rate limit evaluated on a concrete tick (raw action all
ones, previous action all zeros, first motor). -/
theorem predictAction_rate_limited_witness :
    |(predictAction true [9/10, 9/10, 9/10, 9/10, 9/10, 9/10, 9/10, 9/10]
        [0, 0, 0, 0, 0, 0, 0, 0]).getD 0 0 -
      ([0, 0, 0, 0, 0, 0, 0, 0] : List ℚ).getD 0 0| ≤ 1/20 :=
  predictAction_rate_limited [9/10, 9/10, 9/10, 9/10, 9/10, 9/10, 9/10, 9/10]
    [0, 0, 0, 0, 0, 0, 0, 0] 0 (by decide) (by decide)

/-- C1 counterexample: on a tick with no model (or a short sensor vector),
`predict` returns the exploration draw unmodified, and with previous
`lastAction = 0` and a drawn component of 1 the change is 1 > 0.05, so the
rate-limit claim fails on such ticks. -/
theorem predictAction_no_model_violates_rate_limit :
    predictAction false [9/10, 9/10, 9/10, 9/10, 9/10, 9/10, 9/10, 9/10]
        [0, 0, 0, 0, 0, 0, 0, 0] =
      [9/10, 9/10, 9/10, 9/10, 9/10, 9/10, 9/10, 9/10] ∧
    ¬ |(predictAction false [9/10, 9/10, 9/10, 9/10, 9/10, 9/10, 9/10, 9/10]
          [0, 0, 0, 0, 0, 0, 0, 0]).getD 0 0 -
        ([0, 0, 0, 0, 0, 0, 0, 0] : List ℚ).getD 0 0| ≤ 1/20 := by
  constructor
  · rfl
  · norm_num [predictAction, List.getD]
    rw [abs_of_pos (by norm_num : (0 : ℚ) < 9/10)]
    norm_num

/-- The decay applied to `explorationRate` on a tick where the network runs:
`Math.max(0.1, rate * 0.999)`. -/
def decayExplorationRate (r : ℚ) : ℚ := max (1/10) (r * (999/1000))

/-- One `predict` call's effect on `explorationRate`: the decay runs exactly
when the model exists and the sensor vector is long enough; other ticks
leave the rate untouched. -/
def predictRateStep (r : ℚ) (modelReady : Bool) : ℚ :=
  if modelReady then decayExplorationRate r else r

/-- The exploration rate after a sequence of `predict` calls on a fresh
controller (initial rate 0.7); each entry records whether the tick ran the
decay. -/
def rateAfter (ticks : List Bool) : ℚ := ticks.foldl predictRateStep (7/10)

theorem predictRateStep_bounds (r : ℚ) (t : Bool) (h : 1/10 ≤ r) :
    predictRateStep r t ≤ r ∧ 1/10 ≤ predictRateStep r t := by
  unfold predictRateStep decayExplorationRate
  split
  · constructor
    · apply max_le h
      nlinarith
    · exact le_max_left _ _
  · exact ⟨le_rfl, h⟩

theorem foldl_rate_bounds :
    ∀ (l : List Bool) (r : ℚ), 1/10 ≤ r →
      List.foldl predictRateStep r l ≤ r ∧ 1/10 ≤ List.foldl predictRateStep r l := by
  intro l
  induction l with
  | nil => intro r h; exact ⟨le_rfl, h⟩
  | cons t l ih =>
    intro r h
    have hs := predictRateStep_bounds r t h
    have hrec := ih (predictRateStep r t) hs.2
    exact ⟨le_trans hrec.1 hs.1, hrec.2⟩

/-- C8: over any sequence of `predict` calls from a fresh controller, the
exploration rate is monotonically non-increasing and never drops below the
floor 0.1; on ticks where it decays, the update is exactly
`max(0.1, rate * 0.999)`. -/
theorem explorationRate_monotone_and_floored :
    (∀ l₁ l₂ : List Bool, rateAfter (l₁ ++ l₂) ≤ rateAfter l₁ ∧ (1 : ℚ)/10 ≤ rateAfter l₁) ∧
    (∀ r : ℚ, predictRateStep r true = max (1/10) (r * (999/1000))) := by
  constructor
  · intro l₁ l₂
    have h1 := foldl_rate_bounds l₁ (7/10) (by norm_num)
    constructor
    · unfold rateAfter
      rw [List.foldl_append]
      exact (foldl_rate_bounds l₂ _ h1.2).1
    · exact h1.2
  · intro r
    rfl

/-- One serialized tensor entry of the export document
(`interface TensorData` of `lib/ModelExporter.ts`). -/
structure TensorData where
  dtype : String
  shape : List Nat
  data : List ℚ
  deriving DecidableEq

/-- The export document built by `ModelExporter.exportToSafetensors`
(`interface ExportData`): the merged metadata record (carried opaquely as
key/value pairs, since its defaults include the wall-clock `created_at`),
the tensor table in insertion order, and the version string. -/
structure ExportData where
  metadata : List (String × String)
  tensors : List (String × TensorData)
  version : String
  deriving DecidableEq

/-- The deterministic tensor-entry name `layer_<index>_<name>`, with the
JavaScript `|| 'weight'` fallback for a falsy (empty) weight name. -/
def tensorEntryName (i : Nat) (w : NamedTensor) : String :=
  "layer_" ++ toString i ++ "_" ++ (if w.name = "" then ("weight") else w.name)

/-- Embedding of `ModelExporter.exportToSafetensors`: one entry per weight
tensor of the model, in order, each carrying dtype "F32", the tensor shape,
and the flattened float32 values. -/
def exportToSafetensors (model : NetModel) (fullMetadata : List (String × String)) : ExportData :=
  { metadata := fullMetadata
    tensors := mapWithIndex
      (fun i w => (tensorEntryName i w, { dtype := "F32", shape := w.shape, data := w.data }))
      0 model.weights
    version := "1.0" }

/-- The result value of `BossController.exportModel`. -/
structure ExportResult where
  success : Bool
  filename : Option String
  error : Option String
  deriving DecidableEq

/-- The export filename `<robot id>_boss_model_<date>.safetensors.json`. -/
def exportFilename (rt : RobotType) (dateStr : String) : String :=
  rt.id ++ "_boss_model_" ++ dateStr ++ ".safetensors.json"

/-- The metadata record `exportModel` passes to the exporter (the
`created_at` default added inside the exporter is wall-clock data and is
merged outside this model). -/
def exportMetadata (s : ControllerState) : List (String × String) :=
  [("robot_type", s.robotType.id),
   ("robot_name", s.robotType.name),
   ("sensor_count", toString s.robotType.sensorCount),
   ("motor_count", toString s.robotType.motorCount),
   ("training_samples", toString s.trainingData.length),
   ("model_name", s.modelName),
   ("export_version", "1.0")]

/-- The message of the error thrown by `exportModel` when `this.model` is
null. -/
def noModelMsg : String := "No trained model to export"

/-- Embedding of `BossController.exportModel`.  The missing-model guard
throws before the try/catch is entered, so that rejection escapes to the
caller; inside the try block the export itself cannot fail in this model
(the external download machinery is out of scope), so a present model
yields a `success := true` result with the filename. -/
def exportModel (dateStr : String) (s : ControllerState) : Except String ExportResult :=
  match s.model with
  | none => Except.error noModelMsg
  | some m =>
    let _doc := exportToSafetensors m (exportMetadata s)
    Except.ok { success := true, filename := some (exportFilename s.robotType dateStr), error := none }

/-- C3 counterexample: on a fresh controller (no network), `exportModel`
does not return a `success = false` result: it throws, and the rejection
escapes to the caller (the control panel catches it around the call). -/
theorem exportModel_noModel_not_failure_result :
    exportModel ("2026-10-11") (initialState BIPED ("m")) = Except.error noModelMsg := rfl

/-- C3 (amended): whenever no network exists, `exportModel` throws the
error message instead of returning a failure result; the `success = false`
path covers only exceptions raised inside the try block of the export
itself. -/
theorem exportModel_noModel_throws (dateStr : String) (s : ControllerState)
    (h : s.model = none) :
    exportModel dateStr s = Except.error noModelMsg := by
  unfold exportModel
  rw [h]

/-- C3 witness: the throwing behaviour evaluated at a concrete modelless
controller state. -/
theorem exportModel_noModel_throws_witness :
    exportModel ("2026-01-01") (initialState SPIDER ("n")) = Except.error noModelMsg :=
  exportModel_noModel_throws ("2026-01-01") (initialState SPIDER ("n")) rfl

/-- A JSON value as produced by `JSON.stringify` (object key order is
insertion order). -/
inductive Json where
  | num (q : ℚ)
  | text (s : String)
  | arr (items : List Json)
  | obj (fields : List (String × Json))

/-- Whether a JSON value is an array. -/
def Json.isArr : Json → Bool
  | Json.arr _ => true
  | _ => false

/-- Look up a key of a JSON object. -/
def Json.lookupKey : Json → String → Option Json
  | Json.obj fields, k => (fields.find? (fun p => p.1 == k)).map (fun p => p.2)
  | _, _ => none

/-- `JSON.stringify` of a `Float32Array`: a typed array has no `toJSON`
method and stringifies like a plain object, via its enumerable index
properties — an object keyed by decimal indices, not a JSON array. -/
def float32ArrayJson (data : List ℚ) : Json :=
  Json.obj (mapWithIndex (fun i v => (toString i, Json.num v)) 0 data)

/-- `JSON.stringify` of one `TensorData` record. -/
def tensorDataJson (t : TensorData) : Json :=
  Json.obj [("dtype", Json.text t.dtype),
    ("shape", Json.arr (t.shape.map (fun n => Json.num n))),
    ("data", float32ArrayJson t.data)]

/-- `JSON.stringify` of the whole export document. -/
def exportDataJson (e : ExportData) : Json :=
  Json.obj [("metadata", Json.obj (e.metadata.map (fun p => (p.1, Json.text p.2)))),
    ("tensors", Json.obj (e.tensors.map (fun p => (p.1, tensorDataJson p.2)))),
    ("version", Json.text e.version)]

/-- The numeric values of a JSON object's fields, in key order: applied to a
serialized `Float32Array` this reconstructs the flattened buffer. -/
def numValues (fields : List (String × Json)) : List ℚ :=
  fields.filterMap (fun p => match p.2 with | Json.num q => some q | _ => none)

/-- Reconstruct the flattened float32 values from the serialized data
field. -/
def readFloat32Values (j : Json) : List ℚ :=
  match j with
  | Json.obj fields => numValues fields
  | _ => []

theorem numValues_mapWithIndex :
    ∀ (l : List ℚ) (n : Nat),
      numValues (mapWithIndex (fun i v => (toString i, Json.num v)) n l) = l := by
  intro l
  induction l with
  | nil => intro n; rfl
  | cons a as ih =>
    intro n
    show numValues ((toString n, Json.num a) :: mapWithIndex _ (n + 1) as) = a :: as
    unfold numValues
    rw [List.filterMap_cons]
    simp only []
    rw [show List.filterMap _ (mapWithIndex _ (n + 1) as) =
      numValues (mapWithIndex (fun i v => (toString i, Json.num v)) (n + 1) as) from rfl]
    rw [ih (n + 1)]

/-- A default entry for out-of-range reads (never observable in range). -/
def emptyEntry : String × TensorData := ("", { dtype := "", shape := [], data := [] })

/-- A default tensor for out-of-range reads (never observable in range). -/
def emptyTensor : NamedTensor := { name := "", shape := [], data := [] }

/-- C4 (amended): the export document has exactly one entry per weight
tensor, in order; entry `i` is named `layer_<i>_<name>` and carries dtype
"F32", the tensor's shape and its flattened values; and reading the values
back from the serialized index-keyed data object (the `JSON.stringify`
image of the `Float32Array` — an object, not a flat JSON array)
reproduces the original flattened values exactly. -/
theorem exportToSafetensors_roundtrip (model : NetModel) (md : List (String × String))
    (i : Nat) (hi : i < model.weights.length) :
    (exportToSafetensors model md).tensors.length = model.weights.length ∧
    (exportToSafetensors model md).tensors.getD i emptyEntry =
      (tensorEntryName i (model.weights.getD i emptyTensor),
        { dtype := "F32", shape := (model.weights.getD i emptyTensor).shape,
          data := (model.weights.getD i emptyTensor).data }) ∧
    readFloat32Values (float32ArrayJson ((model.weights.getD i emptyTensor).data)) =
      (model.weights.getD i emptyTensor).data := by
  refine ⟨?_, ?_, ?_⟩
  · show (mapWithIndex _ 0 model.weights).length = _
    rw [mapWithIndex_length]
  · show (mapWithIndex _ 0 model.weights).getD i emptyEntry = _
    rw [mapWithIndex_getD _ emptyEntry emptyTensor model.weights 0 i hi]
    simp only [Nat.zero_add]
  · show numValues (mapWithIndex _ 0 _) = _
    rw [numValues_mapWithIndex]

/-- C4 witness: the round-trip evaluated on a concrete one-tensor model. -/
theorem exportToSafetensors_roundtrip_witness :
    (exportToSafetensors { weights := [{ name := "kernel", shape := [2], data := [3/2, -(1/4)] }] }
        []).tensors.length = 1 ∧
    (exportToSafetensors { weights := [{ name := "kernel", shape := [2], data := [3/2, -(1/4)] }] }
        []).tensors.getD 0 emptyEntry =
      (tensorEntryName 0 ({ name := "kernel", shape := [2], data := [3/2, -(1/4)] }),
        { dtype := "F32", shape := [2], data := [3/2, -(1/4)] }) ∧
    readFloat32Values (float32ArrayJson [3/2, -(1/4)]) = [3/2, -(1/4)] := by
  have h := exportToSafetensors_roundtrip
    { weights := [{ name := "kernel", shape := [2], data := [3/2, -(1/4)] }] } [] 0 (by decide)
  exact h

/-- C4 counterexample: in the serialized export document of a concrete
one-tensor model, the tensor's `data` field is an index-keyed JSON object
(the `JSON.stringify` image of a `Float32Array`), not a flat JSON array. -/
theorem export_data_field_not_flat_array :
    ((exportDataJson (exportToSafetensors
          { weights := [{ name := "kernel", shape := [2], data := [3/2, -(1/4)] }] }
          [])).lookupKey ("tensors")).bind
        (fun t => (t.lookupKey ("layer_0_kernel")).bind
          (fun td => td.lookupKey ("data"))) =
      some (Json.obj [(("0"), Json.num (3/2)), (("1"), Json.num (-(1/4)))]) ∧
    Json.isArr (Json.obj [(("0"), Json.num (3/2)), (("1"), Json.num (-(1/4)))]) = false := by
  constructor
  · rfl
  · rfl

/-- The observable outcome of one `trainModel` call: `skippedEarly` is the
silent early return (`!this.model || this.trainingData.length < 5`),
`insufficientData` the "Not enough good samples for training yet" report,
and `trained` a completed `model.fit`. -/
inductive TrainOutcome where
  | skippedEarly
  | insufficientData
  | trained
  deriving DecidableEq

/-- Embedding of `BossController.trainModel`.  The gradient step itself
(`model.fit`) is external: it is passed in as `fitProc`, consuming the
weighted `(state, action)` pairs; every skip path is independent of it.
The filter keeps samples with fitness above 20, the sort is by fitness
descending, the top 200 are kept, and each kept sample is replicated
`max(1, floor(fitness / 25))` times. -/
def trainModel (fitProc : NetModel → List (List ℚ × List ℚ) → NetModel)
    (s : ControllerState) : ControllerState × TrainOutcome :=
  match s.model with
  | none => (s, TrainOutcome.skippedEarly)
  | some m =>
    if s.trainingData.length < 5 then (s, TrainOutcome.skippedEarly)
    else
      let s1 := { s with isTraining := true }
      let sortedSamples :=
        ((s.trainingData.filter (fun sample => decide (20 < sample.fitness))).mergeSort
          (fun a b => decide (b.fitness ≤ a.fitness))).take 200
      if sortedSamples.length < 3 then
        ({ s1 with isTraining := false }, TrainOutcome.insufficientData)
      else
        let weighted := (sortedSamples.map (fun sample =>
          List.replicate (max 1 (Int.toNat ⌊sample.fitness / 25⌋))
            (sample.state.take s.robotType.sensorCount, sample.action))).flatten
        ({ s1 with model := some (fitProc m weighted), isTraining := false },
          TrainOutcome.trained)

/-- An empty network standing in for a freshly created model in concrete
training scenarios. -/
def netM0 : NetModel := { weights := [] }

/-- Scenario D with a two-sample buffer: a model is present and only two
samples (both above the fitness threshold) are buffered. -/
def stateTwoSamples : ControllerState :=
  { initialState BIPED ("m") with
    model := some netM0
    trainingData := [{ state := [], action := [], fitness := 50 },
      { state := [], action := [], fitness := 50 }] }

/-- C7 counterexample: with a model present and a buffer of two samples
(fewer than 3 above the threshold), `trainModel` returns silently on the
`length < 5` early-exit without reporting insufficient data (though the
state is indeed unchanged). -/
theorem trainModel_small_buffer_silent :
    trainModel (fun m _ => m) stateTwoSamples = (stateTwoSamples, TrainOutcome.skippedEarly) ∧
    TrainOutcome.skippedEarly ≠ TrainOutcome.insufficientData := by
  constructor
  · rfl
  · decide

/-- C7 (amended): if a model is present, the buffer holds at least 5
samples, and fewer than 3 of them have fitness above 20, `trainModel`
reports insufficient data and ends with the network weights unchanged, the
buffer unchanged, and `isTraining` false (buffers of fewer than 5 samples
instead take the silent early return, likewise leaving the state
unchanged). -/
theorem trainModel_insufficient_data (fitProc : NetModel → List (List ℚ × List ℚ) → NetModel)
    (s : ControllerState) (m : NetModel)
    (hm : s.model = some m)
    (h5 : 5 ≤ s.trainingData.length)
    (h3 : (s.trainingData.filter (fun sample => decide (20 < sample.fitness))).length < 3) :
    trainModel fitProc s = ({ s with isTraining := false }, TrainOutcome.insufficientData) := by
  unfold trainModel
  rw [hm]
  dsimp only
  rw [if_neg (by omega)]
  rw [if_pos]
  rw [List.length_take, (List.mergeSort_perm _ _).length_eq]
  omega

/-- C7 witness: the insufficient-data report evaluated on a concrete
five-sample buffer with two samples above the threshold. -/
theorem trainModel_insufficient_data_witness :
    trainModel (fun m _ => m)
      { initialState BIPED ("m") with
        model := some netM0
        trainingData := [{ state := [], action := [], fitness := 50 },
          { state := [], action := [], fitness := 30 },
          { state := [], action := [], fitness := 10 },
          { state := [], action := [], fitness := 5 },
          { state := [], action := [], fitness := 0 }] } =
      ({ initialState BIPED ("m") with
        model := some netM0
        isTraining := false
        trainingData := [{ state := [], action := [], fitness := 50 },
          { state := [], action := [], fitness := 30 },
          { state := [], action := [], fitness := 10 },
          { state := [], action := [], fitness := 5 },
          { state := [], action := [], fitness := 0 }] }, TrainOutcome.insufficientData) :=
  trainModel_insufficient_data (fun m _ => m) _ netM0 rfl (by decide) (by decide)

end Boss
